import Mathlib

/-!
Verification of the Russian-language video-statistics query bot
(`database.py`, `bot.py`).  The deterministic classifier
`parse_with_patterns`, its lexical extractors, the AI-orchestration in
`parse_query`, and the reply logic of `handle_message` are embedded as
executable Lean functions.  Python code that may raise is modelled with
`Except Unit`; external collaborators (HTTP, `json.loads`, `asyncpg`) are
modelled as explicit parameters describing their outcome.
-/

namespace VideoBot

abbrev Txt := List Char

/-- Lowercasing as `str.lower` / `re.IGNORECASE` behave on the alphabets the
classifier uses: ASCII letters and the Cyrillic range А-Я plus Ё. -/
def ruLower (c : Char) : Char :=
  let n := c.toNat
  if 65 ≤ n ∧ n ≤ 90 then Char.ofNat (n + 32)
  else if 0x410 ≤ n ∧ n ≤ 0x42F then Char.ofNat (n + 32)
  else if n = 0x401 then Char.ofNat 0x451
  else c

def lowerTxt (t : Txt) : Txt := t.map ruLower

/-- Whitespace class of the regex `\s` (ASCII part, the only one the inputs use). -/
def isSpc (c : Char) : Bool :=
  c == ' ' || c == '\t' || c == '\n' || c == '\r' || c == '\x0b' || c == '\x0c'

def isDigitSpc (c : Char) : Bool := c.isDigit || isSpc c

/-- Substring test: some suffix of the text starts with `p`. -/
def hasSub (p : Txt) : Txt → Bool
  | [] => List.isPrefixOf p []
  | c :: cs => List.isPrefixOf p (c :: cs) || hasSub p cs

def bHasAny (ps : List Txt) (s : Txt) : Bool := ps.any (fun p => hasSub p s)

/-- Rest of the text after the first occurrence of `p` (for `a.*b.*c` searches). -/
def findSubRest (p : Txt) : Txt → Option Txt
  | [] => if List.isPrefixOf p [] then some [] else none
  | c :: cs =>
      if List.isPrefixOf p (c :: cs) then some (List.drop p.length (c :: cs))
      else findSubRest p cs

/-- Match of the regex `a.*b.*c`: the three literals occur in order. -/
def hasSeq3 (a b c : Txt) (s : Txt) : Bool :=
  match findSubRest a s with
  | none => false
  | some r1 =>
    match findSubRest b r1 with
    | none => false
    | some r2 => hasSub c r2

/-- Literal-prefix matcher: consume `p`, return the rest. -/
def litP (p s : Txt) : Option Txt :=
  if List.isPrefixOf p s then some (List.drop p.length s) else none

def splitsFrom (s : Txt) (ks : List Nat) : List (Txt × Txt) :=
  ks.map (fun k => (List.take k s, List.drop k s))

/-- Greedy splits for `cls+`: the consumed/rest pairs the backtracking engine
tries, longest first, at least one character. -/
def plusSplits (p : Char → Bool) (s : Txt) : List (Txt × Txt) :=
  let n := (s.takeWhile p).length
  splitsFrom s ((List.range n).map (fun i => n - i))

/-- Greedy splits for `cls*`: longest first, down to the empty match. -/
def starSplits (p : Char → Bool) (s : Txt) : List (Txt × Txt) :=
  let n := (s.takeWhile p).length
  splitsFrom s ((List.range (n + 1)).map (fun i => n - i))

/-- Leftmost search: apply the anchored matcher at each start position, as
`re.search` does. -/
def scanOpt {α : Type} (f : Txt → Option α) : Txt → Option α
  | [] => f []
  | c :: cs =>
    match f (c :: cs) with
    | some v => some v
    | none => scanOpt f cs

def digitsToNat (ds : Txt) : Nat := ds.foldl (fun a c => a * 10 + (c.toNat - 48)) 0

def stripWs (s : Txt) : Txt := ((s.dropWhile isSpc).reverse.dropWhile isSpc).reverse

/-- Semantics of Python `int(s)` on the strings reachable here (digits and
whitespace): surrounding whitespace is tolerated, anything else —
in particular the empty string — raises `ValueError`. -/
def pyInt (s : Txt) : Except Unit Nat :=
  let t := stripWs s
  if t.isEmpty then .error ()
  else if t.all Char.isDigit then .ok (digitsToNat t)
  else .error ()

/-- Calendar model of `datetime.datetime`.  Construction validates the
year, month and day exactly as CPython does and raises otherwise. -/
structure PyDate where
  year : Nat
  month : Nat
  day : Nat
deriving DecidableEq

def isLeap (y : Nat) : Bool := y % 4 = 0 && (y % 100 ≠ 0 || y % 400 = 0)

def daysInMonth (y m : Nat) : Nat :=
  if m = 2 then (if isLeap y then 29 else 28)
  else if m = 4 ∨ m = 6 ∨ m = 9 ∨ m = 11 then 30
  else 31

def pyDatetime (y m d : Nat) : Except Unit PyDate :=
  if 1 ≤ y ∧ y ≤ 9999 ∧ 1 ≤ m ∧ m ≤ 12 ∧ 1 ≤ d ∧ d ≤ daysInMonth y m then
    .ok ⟨y, m, d⟩
  else .error ()

def pad2 (n : Nat) : String := if n < 10 then "0" ++ toString n else toString n

def pad4 (n : Nat) : String :=
  if n < 10 then "000" ++ toString n
  else if n < 100 then "00" ++ toString n
  else if n < 1000 then "0" ++ toString n
  else toString n

/-- `d.strftime('%Y-%m-%d')`. -/
def fmtDate (d : PyDate) : String := pad4 d.year ++ "-" ++ pad2 d.month ++ "-" ++ pad2 d.day

/-! ## Month table and lexical cue literals (`database.py` 201-207 and the
string literals of the regexes). -/

/-- `MONTHS_RU` of `database.py` 201-207, in source order: genitive, then
nominative, then the prepositional forms present in the source (May-December
only). -/
def MONTHS_RU : List (String × Nat) :=
  [("января", 1), ("февраля", 2), ("марта", 3), ("апреля", 4), ("мая", 5), ("июня", 6),
   ("июля", 7), ("августа", 8), ("сентября", 9), ("октября", 10), ("ноября", 11), ("декабря", 12),
   ("январь", 1), ("февраль", 2), ("март", 3), ("апрель", 4), ("май", 5), ("июнь", 6),
   ("июль", 7), ("август", 8), ("сентябрь", 9), ("октябрь", 10), ("ноябрь", 11), ("декабрь", 12),
   ("мае", 5), ("июне", 6), ("июле", 7), ("августе", 8), ("сентябре", 9), ("октябре", 10),
   ("ноябре", 11), ("декабре", 12)]

def lookupMonth (f : String) : Option Nat := (MONTHS_RU.lookup f)

def sBolshe : Txt := "больше".toList
def sBolee : Txt := "более".toList
def sProsmotr : Txt := "просмотр".toList
def sLajk : Txt := "лайк".toList
def sKomment : Txt := "коммент".toList
def sZhalob : Txt := "жалоб".toList
def sVyros : Txt := "вырос".toList
def sPrirost : Txt := "прирост".toList
def sDelta : Txt := "дельта".toList
def sSkolko : Txt := "сколько".toList
def sRazn : Txt := "разн".toList
def sVideo : Txt := "видео".toList
def sSumma : Txt := "сумма".toList
def sObshchee : Txt := "общее".toList
def sVsegoPhrase : Txt := "сколько всего видео".toList

/-- Metric-noun alternation of the threshold regex, in source order. -/
def metricStems : List Txt := [sProsmotr, sLajk, sKomment, sZhalob]

/-- Genitive month alternation of the single-date regex (`database.py` 250),
in source order. -/
def genForms : List String :=
  ["января", "февраля", "марта", "апреля", "мая", "июня", "июля", "августа",
   "сентября", "октября", "ноября", "декабря"]

/-- Month alternation of the month-range regex (`database.py` 260), in source
order.  Note it also lists the prepositional forms январе/феврале/марте/апреле
which are absent from `MONTHS_RU`. -/
def allForms : List String :=
  ["мая", "май", "мае", "июня", "июнь", "июне", "июля", "июль", "июле",
   "августа", "август", "августе", "сентября", "сентябрь", "сентябре",
   "октября", "октябрь", "октябре", "ноября", "ноябрь", "ноябре",
   "декабря", "декабрь", "декабре", "января", "январь", "январе",
   "февраля", "февраль", "феврале", "марта", "март", "марте",
   "апреля", "апрель", "апреле"]

/-- Preposition alternation of the month-range regex, in source order. -/
def preps : List String := ["за", "в", "на", "опубликован", "вышедш"]

/-! ## Lexical extractors (`database.py` 210-240). -/

/-- Hex character of the class `[0-9a-f]` under `re.IGNORECASE`. -/
def isHexChar (c : Char) : Bool :=
  let n := (ruLower c).toNat
  (48 ≤ n && n ≤ 57) || (97 ≤ n && n ≤ 102)

/-- Exactly `n` hex characters; returns them (original case) and the rest. -/
def takeHex : Nat → Txt → Option (Txt × Txt)
  | 0, s => some ([], s)
  | _ + 1, [] => none
  | n + 1, c :: cs =>
    if isHexChar c then
      match takeHex n cs with
      | some (g, r) => some (c :: g, r)
      | none => none
    else none

def expectDash : Txt → Option Txt
  | c :: cs => if c = '-' then some cs else none
  | [] => none

/-- Anchored match of the canonical 8-4-4-4-12 UUID regex. -/
def matchUuidCanon (s : Txt) : Option Txt := do
  let (a, r1) ← takeHex 8 s
  let r2 ← expectDash r1
  let (b, r3) ← takeHex 4 r2
  let r4 ← expectDash r3
  let (c, r5) ← takeHex 4 r4
  let r6 ← expectDash r5
  let (d, r7) ← takeHex 4 r6
  let r8 ← expectDash r7
  let (e, _) ← takeHex 12 r8
  pure (a ++ '-' :: b ++ '-' :: c ++ '-' :: d ++ '-' :: e)

/-- Anchored match of `[0-9a-f]{32}`. -/
def matchHex32 (s : Txt) : Option Txt := (takeHex 32 s).map (fun pr => pr.1)

/-- `extract_uuid` (`database.py` 223-231): canonical hyphenated form first,
then the bare 32-hex form; the matched slice is returned unmodified. -/
def extract_uuid (text : Txt) : Option Txt :=
  match scanOpt matchUuidCanon text with
  | some u => some u
  | none => scanOpt matchHex32 text

/-- Continuation of the threshold regex after the comparison-cue literal:
`\s+([0-9\s]+)\s*(просмотр|лайк|коммент|жалоб)`, with the engine's greedy
backtracking order; returns group 2. -/
def thrAfterLit (s : Txt) : Option Txt :=
  (plusSplits isSpc s).findSome? fun pr1 =>
    (plusSplits isDigitSpc pr1.2).findSome? fun pr2 =>
      (starSplits isSpc pr2.2).findSome? fun pr3 =>
        if metricStems.any (fun m => List.isPrefixOf m pr3.2) then some pr2.1 else none

/-- Anchored match of the full threshold regex.  The two cue literals cannot
both match at one position (they differ at their fourth character), so trying
them in alternation order reduces to trying whichever one matches. -/
def thrMatch (s : Txt) : Option Txt :=
  match litP sBolshe s with
  | some r => thrAfterLit r
  | none =>
    match litP sBolee s with
    | some r => thrAfterLit r
    | none => none

/-- `extract_threshold` (`database.py` 234-240).  Group 2 is digits and
whitespace; `.replace(" ", "")` drops the spaces and `int(...)` parses, which
raises `ValueError` when nothing remains — hence the `Except`. -/
def extract_threshold (text : Txt) : Except Unit (Option Nat) :=
  match scanOpt thrMatch (lowerTxt text) with
  | none => .ok none
  | some g2 =>
    match pyInt (g2.filter (fun c => !(c == ' '))) with
    | .ok n => .ok (some n)
    | .error er => .error er

/-- `get_month_range` (`database.py` 210-220).  A name missing from
`MONTHS_RU` yields the Python pair `(None, None)`; December rolls the end to
January of `year+1`, which itself raises for year 9999. -/
def get_month_range (month_name : String) (year : Nat) : Except Unit (Option PyDate × Option PyDate) :=
  match lookupMonth (String.mk (month_name.toList.map ruLower)) with
  | none => .ok (none, none)
  | some month =>
    match pyDatetime year month 1 with
    | .error er => .error er
    | .ok start =>
      match (if month = 12 then pyDatetime (year + 1) 1 1 else pyDatetime year (month + 1) 1) with
      | .error er => .error er
      | .ok stop => .ok (some start, some stop)

/-! ## Date matchers of `parse_with_patterns` (`database.py` 250, 260). -/

/-- Alternatives the engine tries for `(\d{1,2})`: two digits first, then one. -/
def take2or1Digits (s : Txt) : List (Txt × Txt) :=
  match s with
  | c1 :: c2 :: r =>
    if c1.isDigit && c2.isDigit then [([c1, c2], r), ([c1], c2 :: r)]
    else if c1.isDigit then [([c1], c2 :: r)]
    else []
  | [c1] => if c1.isDigit then [([c1], [])] else []
  | [] => []

/-- Anchored match of `(\d{4})?`: exactly four leading digits, or nothing. -/
def take4Digits (s : Txt) : Option Txt :=
  match s with
  | a :: b :: c :: d :: _ =>
    if a.isDigit && b.isDigit && c.isDigit && d.isDigit then some [a, b, c, d] else none
  | _ => none

/-- Anchored match of the single-date regex
`(\d{1,2})\s+(января|...|декабря)\s+(\d{4})?` in engine order; yields the
day digits, the matched month form and the optional year digits. -/
def sdAt (s : Txt) : Option (Txt × String × Option Txt) :=
  (take2or1Digits s).findSome? fun prD =>
    (plusSplits isSpc prD.2).findSome? fun pr1 =>
      genForms.findSome? fun f =>
        (litP f.toList pr1.2).bind fun r2 =>
          (plusSplits isSpc r2).findSome? fun pr3 =>
            some (prD.1, f, take4Digits pr3.2)

/-- Anchored match of the month-range regex
`(за|в|на|опубликован|вышедш)\s*(мая|...|апреле)\s+(\d{4})?`; yields the
matched month form and the optional year digits. -/
def mrAt (s : Txt) : Option (String × Option Txt) :=
  preps.findSome? fun p =>
    (litP p.toList s).bind fun r0 =>
      (starSplits isSpc r0).findSome? fun pr1 =>
        allForms.findSome? fun f =>
          (litP f.toList pr1.2).bind fun r2 =>
            (plusSplits isSpc r2).findSome? fun pr3 =>
              some (f, take4Digits pr3.2)

/-- Single-date extraction of `parse_with_patterns` (`database.py` 250-257):
on a match, `datetime(year, month, day)` and `datetime(year, month, day + 1)`
are constructed — the latter raises on the last day of a month. -/
def singleDateOf (tl : Txt) : Except Unit (Option (PyDate × PyDate)) :=
  match scanOpt sdAt tl with
  | none => .ok none
  | some r =>
    let day := digitsToNat r.1
    let year := match r.2.2 with | some y => digitsToNat y | none => 2025
    match lookupMonth r.2.1 with
    | some m =>
      match pyDatetime year m day with
      | .error er => .error er
      | .ok d1 =>
        match pyDatetime year m (day + 1) with
        | .error er => .error er
        | .ok d2 => .ok (some (d1, d2))
    | none => .ok none

/-- Month-range extraction of `parse_with_patterns` (`database.py` 259-263).
The outer `Option` is regex match/no-match; the inner pair is the Python
tuple returned by `get_month_range`, possibly `(None, None)`. -/
def monthRangeOf (tl : Txt) : Except Unit (Option (Option PyDate × Option PyDate)) :=
  match scanOpt mrAt tl with
  | none => .ok none
  | some r =>
    match get_month_range r.1 (match r.2 with | some y => digitsToNat y | none => 2025) with
    | .error er => .error er
    | .ok mr => .ok (some mr)

/-! ## SQL text builders (the f-strings of `database.py` 268-330). -/

def sqlDeltaViews (a b : String) : String :=
  s!"SELECT COALESCE(SUM(delta_views_count), 0) FROM video_snapshots WHERE created_at >= '{a}' AND created_at < '{b}'"

def sqlDeltaLikes (a b : String) : String :=
  s!"SELECT COALESCE(SUM(delta_likes_count), 0) FROM video_snapshots WHERE created_at >= '{a}' AND created_at < '{b}'"

def sqlDistinctViews (a b : String) : String :=
  s!"SELECT COUNT(DISTINCT video_id) FROM video_snapshots WHERE created_at >= '{a}' AND created_at < '{b}' AND delta_views_count > 0"

def sqlDistinctLikes (a b : String) : String :=
  s!"SELECT COUNT(DISTINCT video_id) FROM video_snapshots WHERE created_at >= '{a}' AND created_at < '{b}' AND delta_likes_count > 0"

def sqlCrThrViews (cid : String) (th : Nat) : String :=
  s!"SELECT COUNT(*) FROM videos WHERE creator_id = '{cid}' AND views_count > {th}"

def sqlCrThrLikes (cid : String) (th : Nat) : String :=
  s!"SELECT COUNT(*) FROM videos WHERE creator_id = '{cid}' AND likes_count > {th}"

def dateFilter (a b : String) : String :=
  s!"video_created_at >= '{a}' AND video_created_at < '{b}'"

def sqlCrMonThrViews (cid df : String) (th : Nat) : String :=
  s!"SELECT COUNT(*) FROM videos WHERE creator_id = '{cid}' AND {df} AND views_count > {th}"

def sqlCrMonThrLikes (cid df : String) (th : Nat) : String :=
  s!"SELECT COUNT(*) FROM videos WHERE creator_id = '{cid}' AND {df} AND likes_count > {th}"

def sqlCrMonSumViews (cid df : String) : String :=
  s!"SELECT COALESCE(SUM(views_count), 0) FROM videos WHERE creator_id = '{cid}' AND {df}"

def sqlCrMonSumLikes (cid df : String) : String :=
  s!"SELECT COALESCE(SUM(likes_count), 0) FROM videos WHERE creator_id = '{cid}' AND {df}"

def sqlThrViews (th : Nat) : String :=
  s!"SELECT COUNT(*) FROM videos WHERE views_count > {th}"

def sqlThrLikes (th : Nat) : String :=
  s!"SELECT COUNT(*) FROM videos WHERE likes_count > {th}"

def sqlMonSumViews (df : String) : String :=
  s!"SELECT COALESCE(SUM(views_count), 0) FROM videos WHERE {df}"

def sqlMonSumLikes (df : String) : String :=
  s!"SELECT COALESCE(SUM(likes_count), 0) FROM videos WHERE {df}"

def sqlCrMonCount (cid df : String) : String :=
  s!"SELECT COUNT(*) FROM videos WHERE creator_id = '{cid}' AND {df}"

def sqlCountAll : String := "SELECT COUNT(*) FROM videos"

def sqlSumLikesAll : String := "SELECT COALESCE(SUM(likes_count), 0) FROM videos"

def sqlSumViewsAll : String := "SELECT COALESCE(SUM(views_count), 0) FROM videos"

/-- `month_range[i].strftime(...)`: on the `(None, None)` tuple this is an
`AttributeError`. -/
def strftimeOpt : Option PyDate → Except Unit String
  | none => .error ()
  | some d => .ok (fmtDate d)

/-! ## The sequential rule blocks of `parse_with_patterns` (266-332).
Each block returns `.ok (some sql)` for an early `return`, `.ok none` to fall
through, and `.error` for a raised exception. -/

/-- Snapshot delta queries, `database.py` 266-270. -/
def ruleDelta (tl : Txt) (single_date : Option (PyDate × PyDate)) : Except Unit (Option String) :=
  if bHasAny [sVyros, sPrirost, sDelta] tl then
    match single_date with
    | some dd =>
      if hasSub sProsmotr tl then .ok (some (sqlDeltaViews (fmtDate dd.1) (fmtDate dd.2)))
      else if hasSub sLajk tl then .ok (some (sqlDeltaLikes (fmtDate dd.1) (fmtDate dd.2)))
      else .ok none
    | none => .ok none
  else .ok none

/-- COUNT DISTINCT videos with new metrics, `database.py` 273-277. -/
def ruleDistinct (tl : Txt) (single_date : Option (PyDate × PyDate)) : Except Unit (Option String) :=
  if hasSeq3 sSkolko sRazn sVideo tl then
    match single_date with
    | some dd =>
      if hasSub sProsmotr tl then .ok (some (sqlDistinctViews (fmtDate dd.1) (fmtDate dd.2)))
      else if hasSub sLajk tl then .ok (some (sqlDistinctLikes (fmtDate dd.1) (fmtDate dd.2)))
      else .ok none
    | none => .ok none
  else .ok none

/-- COMBINED creator + threshold, `database.py` 280-284.  A zero threshold is
falsy in Python, hence the extra guard. -/
def ruleCrThr (tl : Txt) (creator_id : Option Txt) (threshold : Option Nat) : Except Unit (Option String) :=
  match creator_id, threshold with
  | some cid, some th =>
    if th = 0 then .ok none
    else if hasSub sProsmotr tl then .ok (some (sqlCrThrViews cid.asString th))
    else if hasSub sLajk tl then .ok (some (sqlCrThrLikes cid.asString th))
    else .ok none
  | _, _ => .ok none

/-- COMBINED creator + month + threshold, `database.py` 286-292.  The date
filter is formatted before the metric nouns are inspected. -/
def ruleCrMonThr (tl : Txt) (creator_id : Option Txt) (threshold : Option Nat)
    (month_range : Option (Option PyDate × Option PyDate)) : Except Unit (Option String) :=
  match creator_id, month_range, threshold with
  | some cid, some mr, some th =>
    if th = 0 then .ok none
    else
      match strftimeOpt mr.1 with
      | .error er => .error er
      | .ok a =>
        match strftimeOpt mr.2 with
        | .error er => .error er
        | .ok b =>
          let df := dateFilter a b
          if hasSub sProsmotr tl then .ok (some (sqlCrMonThrViews cid.asString df th))
          else if hasSub sLajk tl then .ok (some (sqlCrMonThrLikes cid.asString df th))
          else .ok none
  | _, _, _ => .ok none

/-- COMBINED creator + month (SUM), `database.py` 295-300. -/
def ruleCrMonSum (tl : Txt) (creator_id : Option Txt)
    (month_range : Option (Option PyDate × Option PyDate)) : Except Unit (Option String) :=
  match creator_id, month_range with
  | some cid, some mr =>
    match strftimeOpt mr.1 with
    | .error er => .error er
    | .ok a =>
      match strftimeOpt mr.2 with
      | .error er => .error er
      | .ok b =>
        let df := dateFilter a b
        if hasSub sProsmotr tl then .ok (some (sqlCrMonSumViews cid.asString df))
        else if hasSub sLajk tl then .ok (some (sqlCrMonSumLikes cid.asString df))
        else .ok none
  | _, _ => .ok none

/-- Simple threshold, `database.py` 303-307. -/
def ruleThr (tl : Txt) (threshold : Option Nat) : Except Unit (Option String) :=
  match threshold with
  | some th =>
    if th = 0 then .ok none
    else if hasSub sProsmotr tl then .ok (some (sqlThrViews th))
    else if hasSub sLajk tl then .ok (some (sqlThrLikes th))
    else .ok none
  | none => .ok none

/-- Simple month (SUM), `database.py` 310-315. -/
def ruleMonSum (tl : Txt)
    (month_range : Option (Option PyDate × Option PyDate)) : Except Unit (Option String) :=
  match month_range with
  | some mr =>
    match strftimeOpt mr.1 with
    | .error er => .error er
    | .ok a =>
      match strftimeOpt mr.2 with
      | .error er => .error er
      | .ok b =>
        let df := dateFilter a b
        if hasSub sProsmotr tl then .ok (some (sqlMonSumViews df))
        else if hasSub sLajk tl then .ok (some (sqlMonSumLikes df))
        else .ok none
  | none => .ok none

/-- Simple creator + date (COUNT), `database.py` 318-320. -/
def ruleCrMonCount (creator_id : Option Txt)
    (month_range : Option (Option PyDate × Option PyDate)) : Except Unit (Option String) :=
  match creator_id, month_range with
  | some cid, some mr =>
    match strftimeOpt mr.1 with
    | .error er => .error er
    | .ok a =>
      match strftimeOpt mr.2 with
      | .error er => .error er
      | .ok b => .ok (some (sqlCrMonCount cid.asString (dateFilter a b)))
  | _, _ => .ok none

/-- Simple counts, `database.py` 323-324. -/
def ruleCountAll (tl : Txt) : Except Unit (Option String) :=
  if hasSub sVsegoPhrase tl then .ok (some sqlCountAll) else .ok none

/-- Simple sums, `database.py` 327-330. -/
def ruleSums (tl : Txt) : Except Unit (Option String) :=
  if hasSub sLajk tl && bHasAny [sSkolko, sSumma, sObshchee] tl then .ok (some sqlSumLikesAll)
  else if hasSub sProsmotr tl && bHasAny [sSkolko, sSumma, sObshchee] tl then .ok (some sqlSumViewsAll)
  else .ok none

/-- Sequential early-return composition: a block that falls through passes
control to the next, anything else (a returned query or an exception) wins. -/
def chain2 (a b : Except Unit (Option String)) : Except Unit (Option String) :=
  match a with
  | .ok none => b
  | x => x

def pwpBody (tl : Txt) (creator_id : Option Txt) (threshold : Option Nat)
    (single_date : Option (PyDate × PyDate))
    (month_range : Option (Option PyDate × Option PyDate)) : Except Unit (Option String) :=
  chain2 (ruleDelta tl single_date)
    (chain2 (ruleDistinct tl single_date)
      (chain2 (ruleCrThr tl creator_id threshold)
        (chain2 (ruleCrMonThr tl creator_id threshold month_range)
          (chain2 (ruleCrMonSum tl creator_id month_range)
            (chain2 (ruleThr tl threshold)
              (chain2 (ruleMonSum tl month_range)
                (chain2 (ruleCrMonCount creator_id month_range)
                  (chain2 (ruleCountAll tl) (ruleSums tl)))))))))

/-- `parse_with_patterns` (`database.py` 243-332): lowercase the text, run
the extractors, then the ordered rule blocks. -/
def parse_with_patterns (text : Txt) : Except Unit (Option String) :=
  let tl := lowerTxt text
  let creator_id := extract_uuid text
  match extract_threshold text with
  | .error er => .error er
  | .ok threshold =>
    match singleDateOf tl with
    | .error er => .error er
    | .ok single_date =>
      match monthRangeOf tl with
      | .error er => .error er
      | .ok month_range => pwpBody tl creator_id threshold single_date month_range

/-! ## AI resolver and orchestrator (`database.py` 152-196, 335-341).
The HTTP exchange and `json.loads` are external collaborators; they enter the
embedding as parameters: `net` is the outcome of the request (`.error` for a
network failure, timeout or bad status, `.ok` for the returned message
content), `loads` is the behaviour of `json.loads(...).get("sql", "")` on the
regex-matched JSON slice (`.error` for a parse failure, `.ok none` for a
missing field). -/

/-- Characters admitted by the class `[^}]`. -/
def notRBrace (c : Char) : Bool := !(c == '\x7d')

/-- The literal `"sql"` (with its double quotes) inside the JSON regex. -/
def sqlKeyLit : Txt := "\"sql\"".toList

/-- Anchored match of the defensive JSON regex `\x7b[^}]*"sql"[^}]*\x7d`
(written here with escaped braces); returns the whole match. -/
def jsonAt (s : Txt) : Option Txt :=
  match s with
  | c :: r0 =>
    if c = '\x7b' then
      (starSplits notRBrace r0).findSome? fun pr1 =>
        match litP sqlKeyLit pr1.2 with
        | some r2 =>
          (starSplits notRBrace r2).findSome? fun pr3 =>
            match pr3.2 with
            | d :: _ => if d = '\x7d' then some ('\x7b' :: (pr1.1 ++ sqlKeyLit ++ pr3.1 ++ ['\x7d'])) else none
            | [] => none
        | none => none
    else none
  | [] => none

/-- Leftmost search of the JSON regex over the model response text
(`database.py` 185). -/
def jsonSqlSearch (rt : String) : Option String := (scanOpt jsonAt rt.toList).map List.asString

/-- Body of the `try` block of `parse_with_ai` (`database.py` 157-191). -/
def aiBody (net : Except Unit String) (loads : String → Except Unit (Option String)) :
    Except Unit (Option String) :=
  match net with
  | .error er => .error er
  | .ok result_text =>
    match jsonSqlSearch result_text with
    | some mtxt =>
      match loads mtxt with
      | .error er => .error er
      | .ok result =>
        let sql := result.getD ""
        if sql = "" then .ok none
        else if sql = "UNKNOWN" then .ok none
        else .ok (some sql)
    | none => .ok none

/-- `parse_with_ai` (`database.py` 152-196): skipped when `USE_AI` is false;
the surrounding `except Exception` turns every raise into `None`. -/
def parse_with_ai (use_ai : Bool) (net : Except Unit String)
    (loads : String → Except Unit (Option String)) : Option String :=
  if use_ai then
    match aiBody net loads with
    | .ok r => r
    | .error _ => none
  else none

/-- `parse_query` (`database.py` 335-341): AI first when configured, with a
truthiness check on its result, else the deterministic classifier. -/
def parse_query (use_ai : Bool) (net : Except Unit String)
    (loads : String → Except Unit (Option String)) (text : Txt) : Except Unit (Option String) :=
  if use_ai then
    match parse_with_ai use_ai net loads with
    | some sql => if sql = "" then parse_with_patterns text else Except.ok (some sql)
    | none => parse_with_patterns text
  else parse_with_patterns text

/-! ## Execution boundary and reply layer (`database.py` 365-372,
`bot.py` 49-78). -/

/-- Outcome of `self.conn.fetchval(sql)`: a raised exception, a NULL scalar,
or an integer value. -/
inductive FetchOutcome
  | exn (msg : String)
  | null
  | val (n : Int)
deriving DecidableEq

/-- `Database.execute_sql` (`database.py` 365-372): every exception is
swallowed and becomes the sentinel `-1`; a NULL scalar becomes `0`. -/
def execute_sql (sql : String) (o : FetchOutcome) : Int :=
  match sql, o with
  | _, .exn _ => -1
  | _, .null => 0
  | _, .val n => n

/-- Replies `handle_message` can send: the fixed help text, a bare number, or
the error text of `bot.py` 78 (reachable only if query execution raised out
of `execute_sql`, which never happens). -/
inductive Reply
  | helpText
  | number (n : Int)
  | execFailure (msg : String)
deriving DecidableEq

/-- `handle_message` (`bot.py` 49-78): resolve the text (this call sits
outside the `try`, so a raise propagates), send the help text for a falsy or
`UNKNOWN` result, otherwise execute and reply with the number.  The
`except` branch around execution is dead because `execute_sql` is total. -/
def handle_message (use_ai : Bool) (net : Except Unit String)
    (loads : String → Except Unit (Option String)) (text : Txt) (fetch : FetchOutcome) :
    Except Unit Reply :=
  match parse_query use_ai net loads text with
  | .error er => .error er
  | .ok sqlOpt =>
    match sqlOpt with
    | none => .ok .helpText
    | some sql =>
      if sql = "" then .ok .helpText
      else if sql = "UNKNOWN" then .ok .helpText
      else .ok (.number (execute_sql sql fetch))

/-- Stand-in for the `json.loads` collaborator in closed statements where the
AI path is disabled or fails before reaching it. -/
def noLoads : String → Except Unit (Option String) := fun _ => Except.error ()

deriving instance DecidableEq for Except

/-! ## Theorems -/

/-- C1: on the spec's own combined example — creator identifier, month range
(`за июнь`), and a `больше 50000 просмотров` threshold all present — the
classifier extracts the June month range (second conjunct), yet returns the
creator+threshold COUNT query with no date filter: the creator+threshold
block at `database.py` 280 fires before the combined block at 287, silently
dropping the date condition the claim requires. -/
theorem c1_combined_drops_date_filter :
    parse_with_patterns "Сколько видео у креатора aaaabbbbccccddddaaaabbbbccccdddd за июнь набрали больше 50000 просмотров?".toList =
      Except.ok (some "SELECT COUNT(*) FROM videos WHERE creator_id = 'aaaabbbbccccddddaaaabbbbccccdddd' AND views_count > 50000") ∧
    monthRangeOf (lowerTxt "Сколько видео у креатора aaaabbbbccccddddaaaabbbbccccdddd за июнь набрали больше 50000 просмотров?".toList) =
      Except.ok (some (some ⟨2025, 6, 1⟩, some ⟨2025, 7, 1⟩)) :=
  ⟨rfl, rfl⟩

/-- C2: the extractors are not total.  On `"больше  просмотров"` (two spaces
between cue and metric noun) the threshold regex matches with group 2 equal
to a single space, `int("")` raises `ValueError`, and the exception escapes
both `extract_threshold` and `parse_with_patterns`. -/
theorem c2_extract_threshold_raises :
    extract_threshold "больше  просмотров".toList = Except.error () ∧
    parse_with_patterns "больше  просмотров".toList = Except.error () :=
  ⟨rfl, rfl⟩

/-- C4: the help text of `bot.py` itself advertises
`"Сколько видео появилось за май 2025?"`, yet the classifier has no
publication-count rule for an unscoped month range: the input falls through
every block and resolves to `None`, so the bot answers with the
could-not-understand help text instead of a count over `[2025-05-01,
2025-06-01)`. -/
theorem c4_unscoped_month_count_unresolved :
    parse_with_patterns "Сколько видео появилось за май 2025?".toList = Except.ok none ∧
    handle_message false (Except.error ()) noLoads "Сколько видео появилось за май 2025?".toList
      (FetchOutcome.val 5) = Except.ok Reply.helpText :=
  ⟨rfl, rfl⟩

/-- C5: when query execution fails (`fetchval` raises), `execute_sql`
swallows the exception and returns `-1`, and the bot replies with the plain
number `-1` as if it were the answer — not with the distinct error reply of
`bot.py` 78, which is dead code. -/
theorem c5_exec_failure_replies_minus_one :
    handle_message false (Except.error ()) noLoads "Сколько всего видео?".toList
      (FetchOutcome.exn "connection refused") = Except.ok (Reply.number (-1)) :=
  rfl

/-- C8: single-date extraction is broken on the last day of a month: for
`"30 июня 2025"` the code builds `datetime(2025, 6, 31)` for the interval
end, which raises `ValueError` instead of producing `[2025-06-30,
2025-07-01)`. -/
theorem c8_last_day_of_month_raises :
    singleDateOf (lowerTxt "на сколько выросли просмотры 30 июня 2025".toList) = Except.error () ∧
    parse_with_patterns "на сколько выросли просмотры 30 июня 2025".toList = Except.error () :=
  ⟨rfl, rfl⟩

/-- C6 counterexample: the input `"на сколько выросли просмотры"` contains
the views noun, the total cue `сколько`, and the growth cue `вырос`, yet —
no single date being present — the classifier produces exactly the
grand-total views sum the claim forbids: the unscoped-views rule at
`database.py` 329 has no growth-cue exclusion. -/
theorem c6_growth_without_date_gets_grand_total :
    parse_with_patterns "на сколько выросли просмотры".toList =
      Except.ok (some "SELECT COALESCE(SUM(views_count), 0) FROM videos") :=
  rfl

/-- C10: `execute_sql` never raises: any execution failure is caught and
becomes the sentinel `-1`, a NULL scalar becomes `0`, and any other scalar is
passed through; the reply layer then sends the sentinel as the numeric
answer, shown on a concrete failing execution. -/
theorem c10_execute_sql_sentinel :
    (∀ sql msg, execute_sql sql (FetchOutcome.exn msg) = -1) ∧
    (∀ sql, execute_sql sql FetchOutcome.null = 0) ∧
    (∀ sql n, execute_sql sql (FetchOutcome.val n) = n) ∧
    handle_message false (Except.error ()) noLoads "Какое общее количество лайков?".toList
      (FetchOutcome.exn "connection lost") = Except.ok (Reply.number (-1)) :=
  ⟨fun _ _ => rfl, fun _ => rfl, fun _ _ => rfl, rfl⟩

/-- C3: for every inflected month form in the closed `MONTHS_RU` table,
month-range extraction resolves a `за <form> ` phrase to the half-open month
interval determined by the table's month number (default year 2025, December
rolling to January 2026) — the same `(month, year)` pair regardless of
grammatical case, with no failure on any tabled inflection. -/
theorem c3_month_inflections_uniform : ∀ p ∈ MONTHS_RU,
    monthRangeOf (lowerTxt ("за " ++ p.1 ++ " ").toList) =
      Except.ok (some (some ⟨2025, p.2, 1⟩,
        some (if p.2 = 12 then (⟨2026, 1, 1⟩ : PyDate) else ⟨2025, p.2 + 1, 1⟩))) := by
  decide

/-- Witness for C3 at the prepositional form `мае`. -/
theorem c3_month_inflections_uniform_witness :
    (("мае", 5) ∈ MONTHS_RU) ∧
    monthRangeOf (lowerTxt ("за " ++ "мае" ++ " ").toList) =
      Except.ok (some (some ⟨2025, 5, 1⟩, some ⟨2025, 6, 1⟩)) :=
  ⟨by decide, c3_month_inflections_uniform ("мае", 5) (by decide)⟩

/-- Any match of the threshold regex begins with one of the two cue literals,
so a text (already lowercased) containing neither substring yields no match. -/
theorem scanThr_eq_none : ∀ (l : Txt), hasSub sBolshe l = false → hasSub sBolee l = false →
    scanOpt thrMatch l = none := by
  intro l
  induction l with
  | nil => intro _ _; rfl
  | cons c cs ih =>
    intro h1 h2
    simp only [hasSub, Bool.or_eq_false_iff] at h1 h2
    have hm : thrMatch (c :: cs) = none := by
      simp only [thrMatch, litP, h1.1, h2.1, Bool.false_eq_true, if_false]
    simp only [scanOpt, hm]
    exact ih h1.2 h2.2

/-- C9: without a comparison cue — no occurrence of `больше` or `более` in
the (case-folded) text — `extract_threshold` returns `None`; in particular
a bare number such as a 4-digit year token is never read as a threshold. -/
theorem c9_threshold_requires_cue (text : Txt)
    (h1 : hasSub sBolshe (lowerTxt text) = false)
    (h2 : hasSub sBolee (lowerTxt text) = false) :
    extract_threshold text = Except.ok none := by
  unfold extract_threshold
  rw [scanThr_eq_none _ h1 h2]

/-- Witness for C9: a text containing the bare year token `2025` and no
comparison cue yields no threshold. -/
theorem c9_threshold_requires_cue_witness :
    hasSub sBolshe (lowerTxt "Сколько видео вышло за 2025".toList) = false ∧
    hasSub sBolee (lowerTxt "Сколько видео вышло за 2025".toList) = false ∧
    extract_threshold "Сколько видео вышло за 2025".toList = Except.ok none :=
  ⟨rfl, rfl, c9_threshold_requires_cue _ rfl rfl⟩

/-- C7: the AI path never propagates a failure.  When `USE_AI` is off the AI
resolver is skipped; whenever `parse_with_ai` yields no usable result,
`parse_query` falls back to the deterministic classifier; and every failure
mode — network error, no JSON object in the response, a `json.loads` raise,
or the `UNKNOWN` sentinel — makes `parse_with_ai` return `None` rather than
raise. -/
theorem c7_ai_soft_failure_falls_back (use_ai : Bool) (net : Except Unit String)
    (loads : String → Except Unit (Option String)) (text : Txt) :
    (use_ai = false → parse_query use_ai net loads text = parse_with_patterns text) ∧
    (parse_with_ai use_ai net loads = none → parse_query use_ai net loads text = parse_with_patterns text) ∧
    (net = Except.error () → parse_with_ai use_ai net loads = none) ∧
    (∀ rt, net = Except.ok rt → jsonSqlSearch rt = none → parse_with_ai use_ai net loads = none) ∧
    (∀ rt mt, net = Except.ok rt → jsonSqlSearch rt = some mt → loads mt = Except.error () →
      parse_with_ai use_ai net loads = none) ∧
    (∀ rt mt, net = Except.ok rt → jsonSqlSearch rt = some mt → loads mt = Except.ok (some "UNKNOWN") →
      parse_with_ai use_ai net loads = none) := by
  refine ⟨?_, ?_, ?_, ?_, ?_, ?_⟩
  · intro h; subst h; simp [parse_query]
  · intro h; cases use_ai <;> simp [parse_query, h]
  · intro h; subst h; cases use_ai <;> simp [parse_with_ai, aiBody]
  · intro rt h hj; subst h; cases use_ai <;> simp [parse_with_ai, aiBody, hj]
  · intro rt mt h hj hl; subst h; cases use_ai <;> simp [parse_with_ai, aiBody, hj, hl]
  · intro rt mt h hj hl; subst h; cases use_ai <;> simp [parse_with_ai, aiBody, hj, hl]

/-- Witness for C7: with the AI configured but the network call failing, the
resolver yields `None` and resolution equals the deterministic classifier. -/
theorem c7_ai_soft_failure_falls_back_witness :
    parse_with_ai true (Except.error ()) noLoads = none ∧
    parse_query true (Except.error ()) noLoads "Сколько всего видео?".toList =
      parse_with_patterns "Сколько всего видео?".toList :=
  ⟨(c7_ai_soft_failure_falls_back true (Except.error ()) noLoads
      "Сколько всего видео?".toList).2.2.1 rfl,
   (c7_ai_soft_failure_falls_back true (Except.error ()) noLoads
      "Сколько всего видео?".toList).2.1
     ((c7_ai_soft_failure_falls_back true (Except.error ()) noLoads
        "Сколько всего видео?".toList).2.2.1 rfl)⟩

/-- C6 amended: the delta-oriented rule does win over the grand-total views
rule, but only through precedence and only when a single date is extracted:
for every input whose extractors succeed, that contains a growth cue
(`вырос`/`прирост`/`дельта`), a views noun, and a single date, the classifier
returns the delta-views snapshot query — never the grand total.  (Without a
single date, or with `на сколько` as the only growth cue, the grand-total
rule applies, as the counterexample shows.) -/
theorem c6_delta_wins_with_single_date (text : Txt) (th : Option Nat)
    (mr : Option (Option PyDate × Option PyDate)) (d1 d2 : PyDate)
    (hth : extract_threshold text = Except.ok th)
    (hsd : singleDateOf (lowerTxt text) = Except.ok (some (d1, d2)))
    (hmr : monthRangeOf (lowerTxt text) = Except.ok mr)
    (hgr : bHasAny [sVyros, sPrirost, sDelta] (lowerTxt text) = true)
    (hv : hasSub sProsmotr (lowerTxt text) = true) :
    parse_with_patterns text = Except.ok (some (sqlDeltaViews (fmtDate d1) (fmtDate d2))) := by
  simp only [parse_with_patterns, hth, hsd, hmr, pwpBody, ruleDelta, hgr, hv, if_true, chain2]

/-- Witness for C6's amended statement at a concrete dated growth question. -/
theorem c6_delta_wins_with_single_date_witness :
    extract_threshold "на сколько выросли просмотры 28 ноября 2025".toList = Except.ok none ∧
    singleDateOf (lowerTxt "на сколько выросли просмотры 28 ноября 2025".toList) =
      Except.ok (some (⟨2025, 11, 28⟩, ⟨2025, 11, 29⟩)) ∧
    monthRangeOf (lowerTxt "на сколько выросли просмотры 28 ноября 2025".toList) = Except.ok none ∧
    bHasAny [sVyros, sPrirost, sDelta] (lowerTxt "на сколько выросли просмотры 28 ноября 2025".toList) = true ∧
    hasSub sProsmotr (lowerTxt "на сколько выросли просмотры 28 ноября 2025".toList) = true ∧
    parse_with_patterns "на сколько выросли просмотры 28 ноября 2025".toList =
      Except.ok (some (sqlDeltaViews (fmtDate ⟨2025, 11, 28⟩) (fmtDate ⟨2025, 11, 29⟩))) :=
  ⟨rfl, rfl, rfl, rfl, rfl,
   c6_delta_wins_with_single_date _ none none ⟨2025, 11, 28⟩ ⟨2025, 11, 29⟩ rfl rfl rfl rfl rfl⟩

end VideoBot
